import Mathlib

/-!
Verification of the PragyanAI project-demo tracking application.

The development shallowly embeds the parts of the Python sources that the
claims depend on:

* `src/utils.py` : `hash_password`, `check_password` (SHA-256 hex digests);
* `src/auth.py` : `create_user`, `authenticate_user`, `authenticate_admin`;
* `src/PragyanAI_ProjectDemo_Tracking_App.py` : the role-based navigation
  of `main`;
* `src/peer_learning.py` / `src/student_dashboard.py` : the RAG pipeline of
  the question-answering pages, the enrollment form, the user-approval
  button of `src/admin_dashboard.py`, and `parse_quiz_from_markdown`.

Google-Sheets worksheets are modelled as lists of rows of string cells
(1-indexed in the gspread operations), pandas record frames as lists of
records, and the external langchain components (loader, splitter,
embeddings, FAISS index, chat model) as opaque functions that can fail,
mirroring the Python calls that can raise.
-/

/-! ## Python string helpers

`str.strip` removes leading and trailing whitespace; `str.lower` lowers
each character.  Inputs handled by the app are ASCII, where
`Char.isWhitespace` and `Char.toLower` agree with Python. -/

def lstripL (cs : List Char) : List Char := cs.dropWhile Char.isWhitespace

def rstripL : List Char → List Char
  | [] => []
  | c :: cs =>
    match rstripL cs with
    | [] => if c.isWhitespace then [] else [c]
    | x :: xs => c :: x :: xs

def pyStripL (cs : List Char) : List Char := rstripL (lstripL cs)

def pyStrip (s : String) : String := String.mk (pyStripL s.data)

def pyLower (s : String) : String := String.mk (s.data.map Char.toLower)

/-! ## SHA-256 (`hashlib.sha256(...).hexdigest()` from `src/utils.py`)

A byte is a `Nat` below 256, a word a `Nat` below `2 ^ 32`; overflow is
made explicit with `% 2 ^ 32`. -/

def rotr32 (n x : Nat) : Nat := ((x >>> n) ||| (x <<< (32 - n))) % 2 ^ 32

def bsig0 (x : Nat) : Nat := rotr32 2 x ^^^ rotr32 13 x ^^^ rotr32 22 x

def bsig1 (x : Nat) : Nat := rotr32 6 x ^^^ rotr32 11 x ^^^ rotr32 25 x

def ssig0 (x : Nat) : Nat := rotr32 7 x ^^^ rotr32 18 x ^^^ (x >>> 3)

def ssig1 (x : Nat) : Nat := rotr32 17 x ^^^ rotr32 19 x ^^^ (x >>> 10)

def chFun (x y z : Nat) : Nat := (x &&& y) ^^^ ((x ^^^ 0xffffffff) &&& z)

def majFun (x y z : Nat) : Nat := (x &&& y) ^^^ (x &&& z) ^^^ (y &&& z)

/-- The eight 32-bit working variables of SHA-256. -/
structure Hash8 where
  a : Nat
  b : Nat
  c : Nat
  d : Nat
  e : Nat
  f : Nat
  g : Nat
  h : Nat
deriving DecidableEq

def sha256init : Hash8 :=
  ⟨1779033703, 3144134277, 1013904242, 2773480762,
   1359893119, 2600822924, 528734635, 1541459225⟩

def sha256k : List Nat :=
  [1116352408, 1899447441, 3049323471, 3921009573,
   961987163, 1508970993, 2453635748, 2870763221,
   3624381080, 310598401, 607225278, 1426881987,
   1925078388, 2162078206, 2614888103, 3248222580,
   3835390401, 4022224774, 264347078, 604807628,
   770255983, 1249150122, 1555081692, 1996064986,
   2554220882, 2821834349, 2952996808, 3210313671,
   3336571891, 3584528711, 113926993, 338241895,
   666307205, 773529912, 1294757372, 1396182291,
   1695183700, 1986661051, 2177026350, 2456956037,
   2730485921, 2820302411, 3259730800, 3345764771,
   3516065817, 3600352804, 4094571909, 275423344,
   430227734, 506948616, 659060556, 883997877,
   958139571, 1322822218, 1537002063, 1747873779,
   1955562222, 2024104815, 2227730452, 2361852424,
   2428436474, 2756734187, 3204031479, 3329325298]

/-- Number of zero bytes between the `0x80` byte and the 8-byte length:
the unique `k < 64` with `len + 1 + k` congruent to `56` modulo `64`
(written so that the natural subtraction cannot truncate). -/
def sha256padZeros (len : Nat) : Nat := (120 - (len + 1) % 64) % 64

def beBytes8 (n : Nat) : List Nat :=
  [n >>> 56 % 256, n >>> 48 % 256, n >>> 40 % 256, n >>> 32 % 256,
   n >>> 24 % 256, n >>> 16 % 256, n >>> 8 % 256, n % 256]

def sha256pad (msg : List Nat) : List Nat :=
  msg ++ [0x80] ++ List.replicate (sha256padZeros msg.length) 0 ++
    beBytes8 (msg.length * 8)

/-- Splits a list into chunks of `n + 1` elements (the last may be short). -/
def chunksOf (n : Nat) : List Nat → List (List Nat)
  | [] => []
  | x :: xs =>
    (x :: xs).take (n + 1) :: chunksOf n ((x :: xs).drop (n + 1))
termination_by l => l.length
decreasing_by simp [List.length_drop]; omega

def word4 (b : List Nat) : Nat :=
  b.getD 0 0 * 2 ^ 24 + b.getD 1 0 * 2 ^ 16 + b.getD 2 0 * 2 ^ 8 + b.getD 3 0

/-- Extends the 16-word message schedule by `n` further words. -/
def extendW : Nat → List Nat → List Nat
  | 0, w => w
  | n + 1, w =>
    extendW n (w ++ [(ssig1 (w.getD (w.length - 2) 0) + w.getD (w.length - 7) 0 +
      ssig0 (w.getD (w.length - 15) 0) + w.getD (w.length - 16) 0) % 2 ^ 32])

def sha256round (st : Hash8) (ki wi : Nat) : Hash8 :=
  let t1 := (st.h + bsig1 st.e + chFun st.e st.f st.g + ki + wi) % 2 ^ 32
  let t2 := (bsig0 st.a + majFun st.a st.b st.c) % 2 ^ 32
  ⟨(t1 + t2) % 2 ^ 32, st.a, st.b, st.c, (st.d + t1) % 2 ^ 32, st.e, st.f, st.g⟩

def sha256block (st : Hash8) (blockBytes : List Nat) : Hash8 :=
  let w := extendW 48 ((chunksOf 3 blockBytes).map word4)
  let o := (sha256k.zip w).foldl (fun s p => sha256round s p.1 p.2) st
  ⟨(st.a + o.a) % 2 ^ 32, (st.b + o.b) % 2 ^ 32, (st.c + o.c) % 2 ^ 32,
   (st.d + o.d) % 2 ^ 32, (st.e + o.e) % 2 ^ 32, (st.f + o.f) % 2 ^ 32,
   (st.g + o.g) % 2 ^ 32, (st.h + o.h) % 2 ^ 32⟩

def sha256bytes (msg : List Nat) : Hash8 :=
  (chunksOf 63 (sha256pad msg)).foldl sha256block sha256init

def hexNibble (n : Nat) : Char :=
  "0123456789abcdef".data.getD n '0'

def wordHexChars (w : Nat) : List Char :=
  [hexNibble (w / 2 ^ 28 % 16), hexNibble (w / 2 ^ 24 % 16),
   hexNibble (w / 2 ^ 20 % 16), hexNibble (w / 2 ^ 16 % 16),
   hexNibble (w / 2 ^ 12 % 16), hexNibble (w / 2 ^ 8 % 16),
   hexNibble (w / 2 ^ 4 % 16), hexNibble (w % 16)]

def hash8Hex (st : Hash8) : List Char :=
  wordHexChars st.a ++ wordHexChars st.b ++ wordHexChars st.c ++
  wordHexChars st.d ++ wordHexChars st.e ++ wordHexChars st.f ++
  wordHexChars st.g ++ wordHexChars st.h

/-- UTF-8 encoding of one character (`str.encode` in Python). -/
def utf8Char (c : Char) : List Nat :=
  let n := c.toNat
  if n < 0x80 then [n]
  else if n < 0x800 then [0xC0 ||| (n >>> 6), 0x80 ||| (n &&& 0x3F)]
  else if n < 0x10000 then
    [0xE0 ||| (n >>> 12), 0x80 ||| ((n >>> 6) &&& 0x3F), 0x80 ||| (n &&& 0x3F)]
  else
    [0xF0 ||| (n >>> 18), 0x80 ||| ((n >>> 12) &&& 0x3F),
     0x80 ||| ((n >>> 6) &&& 0x3F), 0x80 ||| (n &&& 0x3F)]

def utf8Bytes (s : String) : List Nat := (s.data.map utf8Char).flatten

/-- `src/utils.py`, `hash_password`:
`hashlib.sha256(str.encode(password)).hexdigest()`. -/
def hash_password (password : String) : String :=
  String.mk (hash8Hex (sha256bytes (utf8Bytes password)))

/-- `src/utils.py`, `check_password`: compares the stored value with the
SHA-256 hex digest of the supplied password. -/
def check_password (hashed_password user_password : String) : Bool :=
  hashed_password == hash_password user_password

theorem hash8Hex_length (st : Hash8) : (hash8Hex st).length = 64 := by
  simp [hash8Hex, wordHexChars]

theorem hash_password_length (p : String) : (hash_password p).data.length = 64 := by
  simp [hash_password, hash8Hex_length]

/-! ## The User and Admin sheets (`src/auth.py`)

`get_all_records(head=1)` turns a worksheet into records keyed by the
header row; `authenticate_user` reads the columns `UserName`,
`Phone(login)`, `Password`, `Status(Approved/NotApproved)` and (for the
session) `Role(Student/Lead)`.  A connection or worksheet failure is the
`none` case of the `conn` argument. -/

structure UserRow where
  userName : String
  phoneLogin : String
  password : String
  status : String
  role : String
deriving DecidableEq

structure UserSheet where
  cols : List String
  rows : List UserRow
deriving DecidableEq

def requiredUserCols : List String :=
  ["UserName", "Phone(login)", "Password", "Status(Approved/NotApproved)"]

def hasRequiredUserCols (s : UserSheet) : Bool :=
  requiredUserCols.all fun c => s.cols.contains c

/-- The row filter of `src/auth.py` line 54: username equality or the
phone column compared as strings. -/
def userMatches (login : String) (r : UserRow) : Bool :=
  r.userName == login || r.phoneLogin == login

/-- The five outcomes documented for `authenticate_user`
(`src/PragyanAI_ProjectDemo_Tracking_App.py` lines 236-243). -/
inductive AuthResult where
  | success (row : UserRow)
  | pending
  | invalidPassword
  | notFound
  | errorNone
deriving DecidableEq

/-- `src/auth.py`, `authenticate_user` (lines 36-72): connection failure
gives `None`; an empty sheet gives `"not_found"`; missing required
columns give `None`; otherwise the first row matching the login
identifier is checked with `check_password` and then for the stripped,
lowercased status `"approved"`. -/
def authenticate_user (conn : Option UserSheet) (login pwd : String) : AuthResult :=
  match conn with
  | none => .errorNone
  | some s =>
    if s.rows.isEmpty then .notFound
    else if !hasRequiredUserCols s then .errorNone
    else
      match s.rows.filter (userMatches login) with
      | [] => .notFound
      | r :: _ =>
        if check_password r.password pwd then
          if pyLower (pyStrip r.status) == "approved" then .success r
          else .pending
        else .invalidPassword

structure AdminRow where
  userName : String
  password : String
deriving DecidableEq

structure AdminSheet where
  cols : List String
  rows : List AdminRow
deriving DecidableEq

def hasRequiredAdminCols (s : AdminSheet) : Bool :=
  s.cols.contains "UserName" && s.cols.contains "Password"

/-- `src/auth.py`, `authenticate_admin` (lines 74-97): the first row with
the given username is accepted when its `Password` cell equals the
supplied password directly (no hashing). -/
def authenticate_admin (conn : Option AdminSheet) (username password : String) :
    Option AdminRow :=
  match conn with
  | none => none
  | some s =>
    if s.rows.isEmpty then none
    else if !hasRequiredAdminCols s then none
    else
      match s.rows.filter (fun a => a.userName == username) with
      | [] => none
      | a :: _ => if a.password == password then some a else none

/-! ## `create_user` (`src/auth.py` lines 13-34)

The `User` worksheet stores rows of twelve cells in the order: Timestamp,
FullName, CollegeName, Branch, RollNO(UniversityRegNo),
YearofPassing_Passed, Phone(login), Phone(Whatsapp), UserName, Password,
Status(Approved/NotApproved), Role(Student/Lead).  This layout is the one
the rest of the code relies on: `update_cell(row, 11, 'Approved')`
updates the status column and `update_cell(row, 12, 'Lead')` the role
column (`src/admin_dashboard.py`).  Records are the data rows (the header
excluded), so the UserName cell is index 8 and the Phone(login) cell
index 6 (0-indexed). -/

structure SignupDetails where
  fullName : String
  collegeName : String
  branch : String
  rollNo : String
  yearOfPassing : String
  phoneLogin : String
  phoneWhatsapp : String
  userName : String
  password : String
deriving DecidableEq

/-- The row appended by `create_user`; `now` stands for
`datetime.datetime.now().strftime(...)`. -/
def newUserRow (now : String) (d : SignupDetails) : List String :=
  [now, d.fullName, d.collegeName, d.branch, d.rollNo, d.yearOfPassing,
   d.phoneLogin, d.phoneWhatsapp, d.userName, hash_password d.password,
   "NotApproved", "Student"]

/-- The duplicate test of `src/auth.py` line 21: the sheet is non-empty
and the username occurs in the `UserName` column or the phone in the
`Phone(login)` column. -/
def signupDup (records : List (List String)) (d : SignupDetails) : Bool :=
  !records.isEmpty &&
    ((records.map fun r => r.getD 8 "").contains d.userName ||
     (records.map fun r => r.getD 6 "").contains d.phoneLogin)

/-- `src/auth.py`, `create_user`: returns the success flag, the message
shown, and the data rows of the `User` worksheet after the call. -/
def create_user (records : List (List String)) (now : String) (d : SignupDetails) :
    Bool × String × List (List String) :=
  if signupDup records d then
    (false, "Username or Login Phone already exists.", records)
  else
    (true, "Account created! Please wait for admin approval.",
     records ++ [newUserRow now d])

/-! ## Worksheet cell operations (gspread)

A worksheet is its list of rows, header row included; gspread addresses
cells by 1-indexed row and column.  `append_row` appends at the end,
`update_cell` overwrites one cell, `find` returns the first cell equal to
the value, scanning rows top to bottom and left to right. -/

abbrev Worksheet := List (List String)

def setNth {α : Type} : List α → Nat → α → List α
  | [], _, _ => []
  | _ :: xs, 0, v => v :: xs
  | x :: xs, n + 1, v => x :: setNth xs n v

def cellAt (ws : Worksheet) (r c : Nat) : String :=
  (ws.getD (r - 1) []).getD (c - 1) ""

/-- gspread `update_cell(r, c, v)` with 1-indexed `r`, `c` (all updates
issued by the app stay inside the existing grid). -/
def update_cell (ws : Worksheet) (r c : Nat) (v : String) : Worksheet :=
  setNth ws (r - 1) (setNth (ws.getD (r - 1) []) (c - 1) v)

def findCellAux (v : String) : Worksheet → Nat → Option (Nat × Nat)
  | [], _ => none
  | row :: rows, r =>
    match row.findIdx? (fun c => c == v) with
    | some i => some (r, i + 1)
    | none => findCellAux v rows (r + 1)

/-- gspread `find(v)`: 1-indexed coordinates of the first cell equal to
`v`, in row-major order. -/
def findCell (ws : Worksheet) (v : String) : Option (Nat × Nat) := findCellAux v ws 1

/-- gspread `append_row(row)`. -/
def append_row (ws : Worksheet) (row : List String) : Worksheet := ws ++ [row]

/-- `src/admin_dashboard.py`, `render_user_approval` (lines 66-73): one
press of the `Approve Selected Users` button runs
`users_sheet.update_cell(users_sheet.find(user).row, 11, 'Approved')` for
each selected username in order.  When `find` returns no cell the Python
code raises (`cell.row` on `None`), modelled as `none`. -/
def render_user_approval (ws : Worksheet) (selected : List String) : Option Worksheet :=
  selected.foldlM
    (fun s u => (findCell s u).map fun rc => update_cell s rc.1 11 "Approved") ws

/-- The row appended by the Stage-1 enrollment form
(`src/student_dashboard.py` lines 103-107): six filled cells followed by
placeholder cells, `'No'` in the thirteenth column. -/
def enrollmentRow (fullName collegeName branch title descr keywords : String) :
    List String :=
  [fullName, collegeName, branch, title, descr, keywords,
   "", "", "", "", "", "", "No", "", "", "", "", "", "", ""]

/-- `src/student_dashboard.py`, `render_enrollment_form` (lines 85-113):
an empty required field aborts without touching the sheet, otherwise the
new entry is appended to the `Project_List` worksheet. -/
def render_enrollment_form (ws : Worksheet)
    (fullName collegeName branch title descr keywords : String) : Worksheet × Bool :=
  if title = "" ∨ descr = "" ∨ keywords = "" then (ws, false)
  else (append_row ws (enrollmentRow fullName collegeName branch title descr keywords), true)

/-- The row appended by the leader's event-creation form
(`src/lead_dashboard.py` line 39): date, name, domain and description
followed by placeholder cells, with `No` for the approval and conducted
states. -/
def newEventRow (demoDate eventName domain descr : String) : List String :=
  [demoDate, eventName, domain, descr, "", "No", "No", "", "", "", "", "",
   "", "", "", "", "", ""]

/-- `src/lead_dashboard.py`, the event-creation form (lines 24-45): an
empty required text field aborts without touching the sheet (the
`demo_date` value of `st.date_input` is a date object and always
truthy), otherwise the new event row is appended to
`Project_Demos_List`. -/
def leader_create_event (ws : Worksheet)
    (eventName demoDate domain descr : String) : Worksheet × Bool :=
  if eventName = "" ∨ domain = "" ∨ descr = "" then (ws, false)
  else (append_row ws (newEventRow demoDate eventName domain descr), true)

/-- The new version row of the project-update form
(`src/student_dashboard.py` lines 180-186): a copy of the latest
submission row with cells 6-11 (0-indexed: ToolsList, ReportLink,
PresentationLink, GitHubLink, YouTubeLink, Linkedin_Project_Post_Link)
replaced. -/
def updatedProjectRow (latest : List String)
    (tools report ppt github youtube linkedin : String) : List String :=
  setNth (setNth (setNth (setNth (setNth (setNth latest 6 tools)
    7 report) 8 ppt) 9 github) 10 youtube) 11 linkedin

/-- `src/student_dashboard.py`, `render_update_form` (lines 177-190):
pressing the save button always appends the new version row to the
`Project_List` worksheet. -/
def render_update_form (ws : Worksheet) (latest : List String)
    (tools report ppt github youtube linkedin : String) : Worksheet :=
  append_row ws (updatedProjectRow latest tools report ppt github youtube linkedin)

/-- One row of the `ProjectEvaluation` worksheet
(`src/student_dashboard.py` line 450): candidate, project title,
average score and evaluator.  The four slider scores are naturals up to
100, so `(score1 + score2 + score3 + score4) / 4` is exact in Python
float arithmetic and is modelled as a rational. -/
structure EvaluationRow where
  candidate : String
  projectTitle : String
  avgScore : ℚ
  evaluator : String
deriving DecidableEq

/-- `src/student_dashboard.py`, the evaluation submission of
`show_evaluator_ui` (lines 446-452): appends one row with the average
of the four scores. -/
def show_evaluator_ui (evalSheet : List EvaluationRow)
    (candidate projectTitle : String) (s1 s2 s3 s4 : Nat)
    (evaluator : String) : List EvaluationRow :=
  evalSheet ++
    [⟨candidate, projectTitle, ((s1 : ℚ) + s2 + s3 + s4) / 4, evaluator⟩]

/-! ## Role-based navigation (`src/PragyanAI_ProjectDemo_Tracking_App.py`) -/

/-- The sidebar radio options offered by `main` (lines 898-903): the full
list for role `Admin`, the list without the admin dashboard for `Lead`,
and the student list for every other role. -/
def navOptions (role : String) : List String :=
  if role = "Admin" then
    ["Admin Dashboard", "Leader Dashboard", "Student Dashboard",
     "Peer Learning", "Evaluate Peer Project"]
  else if role = "Lead" then
    ["Leader Dashboard", "Student Dashboard", "Peer Learning",
     "Evaluate Peer Project"]
  else
    ["Student Dashboard", "Peer Learning", "Evaluate Peer Project"]

/-! ## The RAG pipeline (`src/peer_learning.py`, `src/student_dashboard.py`)

The langchain components are opaque: each is a function that either
returns a value or raises, modelled with `Except String`.  `E` is the
type of embedded chunk collections (`HuggingFaceEmbeddings` applied to
the splits), `I` the type of FAISS indexes.  A run of the chain is
recorded as the ordered list of steps it performs. -/

inductive RagStep where
  | loadDocument (url : String)
  | loadPdfDoc (file : String)
  | splitDocuments (chunkSize chunkOverlap : Nat)
  | embedChunks (modelName : String)
  | buildIndex
  | retrieveChunks (query : String)
  | composePrompt (context : List String) (question : String)
  | callModel (modelName : String) (prompt : String)
  | displayAnswer (answer : String)
deriving DecidableEq

structure RagEnv (E I : Type) where
  load : String → Except String (List String)
  loadPdf : String → Except String (List String)
  split : Nat → Nat → List String → Except String (List String)
  embed : String → List String → Except String E
  buildIndex : E → Except String I
  retrieve : I → String → Except String (List String)
  format : List String → String
  chat : String → String → Except String String

/-- The prompt template of `src/peer_learning.py` line 78, with the
`context` and `question` slots filled. -/
def ragTemplate (context question : String) : String :=
  "Answer the question based only on the context:\n\n" ++ context ++
    "\n\nQuestion: " ++ question

/-- The notes prompt template of `src/student_dashboard.py` line 262,
with the `context` slot filled. -/
def notesTemplate (context : String) : String :=
  "You are an expert teacher. Based on the context, generate comprehensive study notes. Explain all key topics, sub-topics, concepts with examples and code samples if applicable. Use detailed Markdown formatting. Context: " ++ context

/-- The body of the `try` block of `show_peer_learning_page`
(`src/peer_learning.py` lines 69-82): load from the report URL, split
with chunk size 1000 and overlap 200, embed with `all-MiniLM-L6-v2`,
build the FAISS index, retrieve the chunks relevant to the question,
fill the prompt template, call `llama3-70b-8192`.  The trace lists the
steps performed up to the first failure. -/
def runRagChain {E I : Type} (env : RagEnv E I) (url question : String) :
    List RagStep × Except String String :=
  match env.load url with
  | .error e => ([.loadDocument url], .error e)
  | .ok docs =>
    match env.split 1000 200 docs with
    | .error e => ([.loadDocument url, .splitDocuments 1000 200], .error e)
    | .ok chunks =>
      match env.embed "all-MiniLM-L6-v2" chunks with
      | .error e =>
        ([.loadDocument url, .splitDocuments 1000 200,
          .embedChunks "all-MiniLM-L6-v2"], .error e)
      | .ok emb =>
        match env.buildIndex emb with
        | .error e =>
          ([.loadDocument url, .splitDocuments 1000 200,
            .embedChunks "all-MiniLM-L6-v2", .buildIndex], .error e)
        | .ok idx =>
          match env.retrieve idx question with
          | .error e =>
            ([.loadDocument url, .splitDocuments 1000 200,
              .embedChunks "all-MiniLM-L6-v2", .buildIndex,
              .retrieveChunks question], .error e)
          | .ok ctx =>
            match env.chat "llama3-70b-8192" (ragTemplate (env.format ctx) question) with
            | .error e =>
              ([.loadDocument url, .splitDocuments 1000 200,
                .embedChunks "all-MiniLM-L6-v2", .buildIndex,
                .retrieveChunks question, .composePrompt ctx question,
                .callModel "llama3-70b-8192" (ragTemplate (env.format ctx) question)],
               .error e)
            | .ok ans =>
              ([.loadDocument url, .splitDocuments 1000 200,
                .embedChunks "all-MiniLM-L6-v2", .buildIndex,
                .retrieveChunks question, .composePrompt ctx question,
                .callModel "llama3-70b-8192" (ragTemplate (env.format ctx) question)],
               .ok ans)

/-- What one interaction renders: the answer written on success, the
error shown by the catch-all handler, and the steps performed. -/
structure PageView where
  shownAnswer : Option String
  shownError : Option String
  trace : List RagStep
deriving DecidableEq

/-- The question-handling part of `show_peer_learning_page`
(`src/peer_learning.py` lines 54-88): a missing API key, report link or
question renders nothing; otherwise the chain is invoked once, its
answer displayed, and any exception is caught by the single handler,
which shows the error message. -/
def show_peer_learning_page {E I : Type} (env : RagEnv E I)
    (apiKey reportUrl question : String) : PageView :=
  if apiKey = "" then ⟨none, none, []⟩
  else if reportUrl = "" then ⟨none, none, []⟩
  else if question = "" then ⟨none, none, []⟩
  else
    match runRagChain env reportUrl question with
    | (tr, .ok ans) => ⟨some ans, none, tr ++ [.displayAnswer ans]⟩
    | (tr, .error e) =>
      ⟨none, some ("Failed to process the document. Error: " ++ e), tr⟩

/-- The document-loading loop of `render_ai_tools`
(`src/student_dashboard.py` lines 253-256): each web link is loaded in
order and the documents concatenated; the first exception aborts. -/
def loadLinks {E I : Type} (env : RagEnv E I) :
    List String → List RagStep × Except String (List String)
  | [] => ([], .ok [])
  | l :: ls =>
    match env.load l with
    | .error e => ([.loadDocument l], .error e)
    | .ok ds =>
      match loadLinks env ls with
      | (tr, .error e) => (.loadDocument l :: tr, .error e)
      | (tr, .ok rest) => (.loadDocument l :: tr, .ok (ds ++ rest))

/-- The fixed query `rag_chain.invoke(...)` receives in `render_ai_tools`
(`src/student_dashboard.py` line 270). -/
def notesQuery : String := "Generate the study notes based on the full context."

/-- The body of the notes `try` block of `render_ai_tools`
(`src/student_dashboard.py` lines 247-271): load the uploaded PDF and
the web links, split with chunk size 1500 and overlap 200, embed, build
the FAISS index, retrieve for the fixed notes query, fill the notes
template, call `llama3-70b-8192`. -/
def runNotesChain {E I : Type} (env : RagEnv E I) (pdf : Option String)
    (links : List String) : List RagStep × Except String String :=
  let pdfStep : List RagStep × Except String (List String) :=
    match pdf with
    | none => ([], .ok [])
    | some f =>
      match env.loadPdf f with
      | .error e => ([.loadPdfDoc f], .error e)
      | .ok ds => ([.loadPdfDoc f], .ok ds)
  match pdfStep with
  | (tr0, .error e) => (tr0, .error e)
  | (tr0, .ok pdfDocs) =>
    match loadLinks env links with
    | (tr1, .error e) => (tr0 ++ tr1, .error e)
    | (tr1, .ok linkDocs) =>
      let docs := pdfDocs ++ linkDocs
      match env.split 1500 200 docs with
      | .error e => (tr0 ++ tr1 ++ [.splitDocuments 1500 200], .error e)
      | .ok chunks =>
        match env.embed "all-MiniLM-L6-v2" chunks with
        | .error e =>
          (tr0 ++ tr1 ++ [.splitDocuments 1500 200,
            .embedChunks "all-MiniLM-L6-v2"], .error e)
        | .ok emb =>
          match env.buildIndex emb with
          | .error e =>
            (tr0 ++ tr1 ++ [.splitDocuments 1500 200,
              .embedChunks "all-MiniLM-L6-v2", .buildIndex], .error e)
          | .ok idx =>
            match env.retrieve idx notesQuery with
            | .error e =>
              (tr0 ++ tr1 ++ [.splitDocuments 1500 200,
                .embedChunks "all-MiniLM-L6-v2", .buildIndex,
                .retrieveChunks notesQuery], .error e)
            | .ok ctx =>
              match env.chat "llama3-70b-8192" (notesTemplate (env.format ctx)) with
              | .error e =>
                (tr0 ++ tr1 ++ [.splitDocuments 1500 200,
                  .embedChunks "all-MiniLM-L6-v2", .buildIndex,
                  .retrieveChunks notesQuery, .composePrompt ctx notesQuery,
                  .callModel "llama3-70b-8192" (notesTemplate (env.format ctx))],
                 .error e)
              | .ok notes =>
                (tr0 ++ tr1 ++ [.splitDocuments 1500 200,
                  .embedChunks "all-MiniLM-L6-v2", .buildIndex,
                  .retrieveChunks notesQuery, .composePrompt ctx notesQuery,
                  .callModel "llama3-70b-8192" (notesTemplate (env.format ctx))],
                 .ok notes)

/-- What the notes generation of `render_ai_tools` renders: the notes
stored in the session state on success, the error shown by the catch-all
handler otherwise. -/
structure NotesView where
  notesStored : Option String
  shownError : Option String
  trace : List RagStep
deriving DecidableEq

/-- The `Generate Study Notes` interaction of `render_ai_tools`
(`src/student_dashboard.py` lines 228-277): a missing API key renders a
warning only; no document and no link renders an input error; otherwise
the chain is invoked once and any exception is caught by the single
handler, which shows the error message and stores no notes. -/
def render_ai_tools {E I : Type} (env : RagEnv E I) (apiKey : String)
    (pdf : Option String) (links : List String) : NotesView :=
  if apiKey = "" then ⟨none, none, []⟩
  else if pdf = none ∧ links = [] then
    ⟨none, some "Please provide at least one document or link.", []⟩
  else
    match runNotesChain env pdf links with
    | (tr, .ok notes) => ⟨some notes, none, tr⟩
    | (tr, .error e) => ⟨none, some ("An error occurred: " ++ e), tr⟩

/-- Number of document-loading steps in a trace (for the no-retry part
of the error-handling claim). -/
def countLoads (tr : List RagStep) : Nat :=
  (tr.filter fun s =>
    match s with
    | .loadDocument _ => true
    | .loadPdfDoc _ => true
    | _ => false).length

/-! ## `parse_quiz_from_markdown` (`src/student_dashboard.py` lines 194-215)

The Python function runs `finditer` with the DOTALL pattern
`Q\d+: (.+?)\n(A\) .+?)\n(B\) .+?)\n(C\) .+?)\n(D\) .+?)\nANSWER: ([A-D])`.
The matcher below implements that pattern over character lists: the five
lazy groups are resolved by trying the split points of each separator in
increasing order with full backtracking (`findSome?` over `splits1`),
and `finditer` by scanning start positions left to right, resuming after
each match. -/

/-- The six capture groups of one regex match. -/
structure QuizGroups where
  question : List Char
  optA : List Char
  optB : List Char
  optC : List Char
  optD : List Char
  ansLetter : Char
deriving DecidableEq

/-- Drops `sep` from the front of the list when it is there. -/
def matchSep : List Char → List Char → Option (List Char)
  | [], cs => some cs
  | _ :: _, [] => none
  | p :: ps, c :: cs => if p = c then matchSep ps cs else none

/-- All decompositions `cs = pre ++ sep ++ post` with `pre` non-empty,
ordered by increasing length of `pre` (the order a lazy `.+?` tries). -/
def splits1 (sep : List Char) : List Char → List (List Char × List Char)
  | [] => []
  | c :: cs =>
    (match matchSep sep cs with
     | some rest => [([c], rest)]
     | none => []) ++ (splits1 sep cs).map fun p => (c :: p.1, p.2)

def sepOptA : List Char := ['\n', 'A', ')', ' ']

def sepOptB : List Char := ['\n', 'B', ')', ' ']

def sepOptC : List Char := ['\n', 'C', ')', ' ']

def sepOptD : List Char := ['\n', 'D', ')', ' ']

def sepAnswer : List Char := ['\n', 'A', 'N', 'S', 'W', 'E', 'R', ':', ' ']

/-- Matches `(.+?)\n(A\) .+?)\n(B\) .+?)\n(C\) .+?)\n(D\) .+?)\nANSWER: ([A-D])`
at the start of `cs`, returning the groups and the rest of the input. -/
def matchQuizBody (cs : List Char) : Option (QuizGroups × List Char) :=
  (splits1 sepOptA cs).findSome? fun p1 =>
  (splits1 sepOptB p1.2).findSome? fun p2 =>
  (splits1 sepOptC p2.2).findSome? fun p3 =>
  (splits1 sepOptD p3.2).findSome? fun p4 =>
  (splits1 sepAnswer p4.2).findSome? fun p5 =>
    match p5.2 with
    | l :: rest =>
      if l = 'A' ∨ l = 'B' ∨ l = 'C' ∨ l = 'D' then
        some (⟨p1.1, 'A' :: ')' :: ' ' :: p2.1, 'B' :: ')' :: ' ' :: p3.1,
               'C' :: ')' :: ' ' :: p4.1, 'D' :: ')' :: ' ' :: p5.1, l⟩, rest)
      else none
    | [] => none

/-- Matches the whole pattern at the start of `cs`: a literal `Q`, one
or more digits, the literal `: `, then the body. -/
def matchQuiz : List Char → Option (QuizGroups × List Char)
  | [] => none
  | c :: rest =>
    if c = 'Q' then
      if (rest.takeWhile Char.isDigit).isEmpty then none
      else
        match rest.dropWhile Char.isDigit with
        | ':' :: ' ' :: r2 => matchQuizBody r2
        | _ => none
    else none

/-- `finditer`: scan start positions left to right, resuming after each
match; the fuel argument (instantiated with the input length plus one,
an upper bound on the number of scan steps) makes the recursion
structural. -/
def findAllQuiz : Nat → List Char → List QuizGroups
  | 0, _ => []
  | _ + 1, [] => []
  | fuel + 1, c :: cs =>
    match matchQuiz (c :: cs) with
    | some (g, rest) => g :: findAllQuiz fuel rest
    | none => findAllQuiz fuel cs

/-- Python `s.startswith(p)` on character lists. -/
def startsWithL : List Char → List Char → Bool
  | [], _ => true
  | _ :: _, [] => false
  | p :: ps, c :: cs => p == c && startsWithL ps cs

structure QuizQuestion where
  question : List Char
  options : List (List Char)
  answer : List Char
deriving DecidableEq

/-- The answer-selection loop of `parse_quiz_from_markdown`: the first
option starting with the answer letter followed by `)`, defaulting to
the empty string. -/
def answerLookup (options : List (List Char)) (letter : Char) : List Char :=
  (options.find? fun o => startsWithL [letter, ')'] o).getD []

/-- The dictionary built for one match: stripped question, the four
stripped options, and the answer looked up by its letter. -/
def mkQuestion (g : QuizGroups) : QuizQuestion :=
  let opts := [pyStripL g.optA, pyStripL g.optB, pyStripL g.optC, pyStripL g.optD]
  ⟨pyStripL g.question, opts, answerLookup opts g.ansLetter⟩

/-- `src/student_dashboard.py`, `parse_quiz_from_markdown`. -/
def parse_quiz_from_markdown (md : String) : List QuizQuestion :=
  (findAllQuiz (md.data.length + 1) md.data).map mkQuestion

/-! ## Claim theorems -/

/-- C3: the set of dashboard views offered to a logged-in session is a
function of the session role alone; the Admin Dashboard is offered
exactly to role `Admin`, the Leader Dashboard exactly to `Admin` and
`Lead`, and every other role is offered exactly the Student Dashboard,
Peer Learning and Evaluate Peer Project views. -/
theorem c3_role_gated_navigation (role : String) :
    ("Admin Dashboard" ∈ navOptions role ↔ role = "Admin") ∧
    ("Leader Dashboard" ∈ navOptions role ↔ (role = "Admin" ∨ role = "Lead")) ∧
    (role ≠ "Admin" → role ≠ "Lead" →
      navOptions role = ["Student Dashboard", "Peer Learning", "Evaluate Peer Project"]) := by
  by_cases hA : role = "Admin" <;> by_cases hL : role = "Lead" <;>
    simp [navOptions, hA, hL]

/-- C3 witness: a role that is neither `Admin` nor `Lead` gets exactly
the three student views. -/
theorem c3_role_gated_navigation_witness :
    navOptions "Guest" = ["Student Dashboard", "Peer Learning", "Evaluate Peer Project"] :=
  (c3_role_gated_navigation "Guest").2.2 (by decide) (by decide)

/-- The duplicate test of `create_user` holds exactly when some existing
record carries the requested username or login phone. -/
theorem signupDup_iff (records : List (List String)) (d : SignupDetails) :
    signupDup records d = true ↔
      ∃ r ∈ records, r.getD 8 "" = d.userName ∨ r.getD 6 "" = d.phoneLogin := by
  simp [signupDup, List.isEmpty_iff, List.contains_iff_exists_mem_beq, List.mem_map]
  constructor
  · rintro ⟨hne, h⟩
    rcases h with ⟨r, hr, he⟩ | ⟨r, hr, he⟩
    · exact ⟨r, hr, Or.inl he⟩
    · exact ⟨r, hr, Or.inr he⟩
  · rintro ⟨r, hr, he | he⟩
    · exact ⟨by rintro rfl; simp at hr, Or.inl ⟨r, hr, he⟩⟩
    · exact ⟨by rintro rfl; simp at hr, Or.inr ⟨r, hr, he⟩⟩

/-- C8: `create_user` fails and leaves the sheet unchanged exactly when
the requested username or login phone already occurs; with a fresh
username and phone it succeeds and appends exactly one row, whose
password cell is the SHA-256 hex digest of the supplied password, whose
status cell is `NotApproved` and whose role cell is `Student`. -/
theorem c8_create_user (records : List (List String)) (now : String) (d : SignupDetails) :
    (create_user records now d =
        (false, "Username or Login Phone already exists.", records) ↔
      ∃ r ∈ records, r.getD 8 "" = d.userName ∨ r.getD 6 "" = d.phoneLogin) ∧
    (create_user records now d =
        (true, "Account created! Please wait for admin approval.",
          records ++ [newUserRow now d]) ↔
      ∀ r ∈ records, r.getD 8 "" ≠ d.userName ∧ r.getD 6 "" ≠ d.phoneLogin) ∧
    (newUserRow now d).getD 9 "" = hash_password d.password ∧
    (newUserRow now d).getD 10 "" = "NotApproved" ∧
    (newUserRow now d).getD 11 "" = "Student" := by
  refine ⟨?_, ?_, rfl, rfl, rfl⟩
  · constructor
    · intro h
      by_cases hd : signupDup records d
      · exact (signupDup_iff records d).mp hd
      · simp [create_user, hd] at h
    · intro hex
      simp [create_user, (signupDup_iff records d).mpr hex]
  · constructor
    · intro h
      intro r hr
      by_cases hd : signupDup records d
      · simp [create_user, hd] at h
      · have := (signupDup_iff records d).not.mp (by simpa using hd)
        push_neg at this
        exact this r hr
    · intro hall
      have hd : signupDup records d = false := by
        rcases Bool.eq_false_or_eq_true (signupDup records d) with h | h
        swap
        · exact h
        · rcases (signupDup_iff records d).mp h with ⟨r, hr, hor⟩
          rcases hor with he | he
          · exact absurd he (hall r hr).1
          · exact absurd he (hall r hr).2
      simp [create_user, hd]

/-- C8 witness: a fresh sign-up against a one-row sheet succeeds and
appends the new row. -/
theorem c8_create_user_witness :
    create_user
        [["t0", "Old User", "C", "B", "9", "2024", "999", "999", "old", "x",
          "Approved", "Student"]] "2025-01-01 00:00:00"
        ⟨"New User", "College", "CSE", "42", "2026", "12345", "12345", "newuser", "secret"⟩ =
      (true, "Account created! Please wait for admin approval.",
       [["t0", "Old User", "C", "B", "9", "2024", "999", "999", "old", "x",
         "Approved", "Student"],
        newUserRow "2025-01-01 00:00:00"
          ⟨"New User", "College", "CSE", "42", "2026", "12345", "12345", "newuser", "secret"⟩]) :=
  (c8_create_user _ _ _).2.1.mpr (by decide)

/-- C7: `authenticate_user` has exactly the five outcomes of its
docstring: the first record matching the login identifier by username
or phone is returned when the SHA-256 digest of the supplied password
equals its `Password` cell and its stripped, lowercased status is
`approved`; `pending` when only the approval test fails;
`invalid_password` when the digest comparison fails; `not_found` when
the sheet is empty or no record matches; and `None` on connection
failure or missing required columns. -/
theorem c7_authenticate_user_outcomes (conn : Option UserSheet) (login pwd : String) :
    (authenticate_user conn login pwd = .errorNone ↔
      (conn = none ∨ ∃ s, conn = some s ∧ s.rows ≠ [] ∧ hasRequiredUserCols s = false)) ∧
    (authenticate_user conn login pwd = .notFound ↔
      (∃ s, conn = some s ∧
        (s.rows = [] ∨ (hasRequiredUserCols s = true ∧
          s.rows.filter (userMatches login) = [])))) ∧
    (∀ r, authenticate_user conn login pwd = .success r ↔
      (∃ s, conn = some s ∧ hasRequiredUserCols s = true ∧
        (s.rows.filter (userMatches login)).head? = some r ∧
        r.password = hash_password pwd ∧
        pyLower (pyStrip r.status) = "approved")) ∧
    (authenticate_user conn login pwd = .pending ↔
      (∃ s r, conn = some s ∧ hasRequiredUserCols s = true ∧
        (s.rows.filter (userMatches login)).head? = some r ∧
        r.password = hash_password pwd ∧
        pyLower (pyStrip r.status) ≠ "approved")) ∧
    (authenticate_user conn login pwd = .invalidPassword ↔
      (∃ s r, conn = some s ∧ hasRequiredUserCols s = true ∧
        (s.rows.filter (userMatches login)).head? = some r ∧
        r.password ≠ hash_password pwd)) := by
  cases conn with
  | none => simp [authenticate_user]
  | some s =>
    by_cases hemp : s.rows = []
    · simp [authenticate_user, hemp]
    · by_cases hcols : hasRequiredUserCols s
      · have hbridge : (s.rows.filter (userMatches login)).head? =
            s.rows.find? (userMatches login) := List.filter_head? _ _
        cases hf : s.rows.filter (userMatches login) with
        | nil =>
          have hfn : s.rows.find? (userMatches login) = none := by
            rw [← hbridge, hf]; rfl
          have hall : ∀ a ∈ s.rows, userMatches login a = false := by
            intro a ha
            simpa using List.filter_eq_nil_iff.mp hf a ha
          simp [authenticate_user, hemp, hcols, hf, hfn, hall]
          exact hall
        | cons r0 tl =>
          have hfs : s.rows.find? (userMatches login) = some r0 := by
            rw [← hbridge, hf]; rfl
          have hr0 : r0 ∈ s.rows ∧ userMatches login r0 = true := by
            have hm : r0 ∈ s.rows.filter (userMatches login) := by
              rw [hf]; exact List.mem_cons_self _ _
            simpa [List.mem_filter] using hm
          by_cases hpw : r0.password = hash_password pwd
          · by_cases hst : pyLower (pyStrip r0.status) = "approved"
            · simp [authenticate_user, check_password, hemp, hcols, hf, hfs, hpw, hst]
              exact ⟨r0, hr0.1, hr0.2⟩
            · simp [authenticate_user, check_password, hemp, hcols, hf, hfs, hpw, hst]
              exact ⟨r0, hr0.1, hr0.2⟩
          · simp [authenticate_user, check_password, hemp, hcols, hf, hfs, hpw]
            exact ⟨r0, hr0.1, hr0.2⟩
      · have hcf : hasRequiredUserCols s = false := by simpa using hcols
        simp [authenticate_user, hemp, hcf]

/-- C7 witness: a concrete sheet with one approved user whose stored
password cell is the digest of `secret` logs that user in. -/
theorem c7_authenticate_user_outcomes_witness :
    authenticate_user
        (some ⟨["UserName", "Phone(login)", "Password",
                "Status(Approved/NotApproved)", "Role(Student/Lead)"],
               [⟨"alice", "111", hash_password "secret", " Approved ", "Student"⟩]⟩)
        "alice" "secret" =
      .success ⟨"alice", "111", hash_password "secret", " Approved ", "Student"⟩ := by
  refine ((c7_authenticate_user_outcomes _ "alice" "secret").2.2.1 _).mpr ?_
  refine ⟨_, rfl, by decide, ?_, rfl, by decide⟩
  simp [userMatches]

/-- C1 (amended): the user login path checks the password by comparing
the SHA-256 hex digest of the supplied password with the stored value
(`check_password` succeeds exactly when the stored value is that
digest), but the admin login path compares the stored `Password` cell
with the supplied password directly in plaintext: `authenticate_admin`
returns the first record with the given username exactly when that
record's `Password` cell equals the supplied password itself. -/
theorem c1_password_comparison :
    (∀ h p, check_password h p = true ↔ h = hash_password p) ∧
    (∀ conn u p r, authenticate_admin conn u p = some r ↔
      (∃ s, conn = some s ∧ hasRequiredAdminCols s = true ∧
        (s.rows.filter fun a => a.userName == u).head? = some r ∧
        r.password = p)) := by
  constructor
  · intro h p
    simp [check_password]
  · intro conn u p r
    cases conn with
    | none => simp [authenticate_admin]
    | some s =>
      by_cases hemp : s.rows = []
      · simp [authenticate_admin, hemp]
      · by_cases hcols : hasRequiredAdminCols s
        · cases hf : s.rows.filter (fun a => a.userName == u) with
          | nil =>
            have hfn : s.rows.find? (fun a => a.userName == u) = none := by
              rw [← List.filter_head? _ _, hf]; rfl
            simp [authenticate_admin, hemp, hcols, hf, hfn]
          | cons a0 tl =>
            have hfs : s.rows.find? (fun a => a.userName == u) = some a0 := by
              rw [← List.filter_head? _ _, hf]; rfl
            by_cases hpw : a0.password = p
            · simp [authenticate_admin, hemp, hcols, hf, hfs, hpw]
              rintro rfl
              exact hpw
            · simp [authenticate_admin, hemp, hcols, hf, hfs, hpw]
              rintro rfl
              exact hpw
        · have hcf : hasRequiredAdminCols s = false := by simpa using hcols
          simp [authenticate_admin, hemp, hcf]

/-- C1 witness: with a stored digest, the user-path comparison succeeds
exactly for the original password. -/
theorem c1_password_comparison_witness :
    check_password (hash_password "secret") "secret" = true :=
  (c1_password_comparison.1 (hash_password "secret") "secret").mpr rfl

/-- C1 counterexample: the admin sheet stores `pw` and the admin login
with supplied password `pw` succeeds, yet the SHA-256 hex digest of the
supplied password is not the stored value, so authentication on the
admin path does not succeed exactly when `sha256(supplied)` equals the
stored value. -/
theorem c1_counterexample :
    authenticate_admin
        (some ⟨["UserName", "Password"], [⟨"admin", "pw"⟩]⟩) "admin" "pw" =
      some ⟨"admin", "pw"⟩ ∧
    hash_password "pw" ≠ "pw" := by
  constructor
  · decide
  · intro h
    have hlen : (hash_password "pw").data.length = ("pw" : String).data.length :=
      congrArg (fun s => s.data.length) h
    rw [hash_password_length "pw"] at hlen
    have h2 : ("pw" : String).data.length = 2 := rfl
    omega

theorem setNth_length {α : Type} (l : List α) (n : Nat) (v : α) :
    (setNth l n v).length = l.length := by
  induction l generalizing n with
  | nil => rfl
  | cons x xs ih =>
    cases n with
    | zero => rfl
    | succ m => simp [setNth, ih]

theorem getD_setNth_ne {α : Type} (l : List α) (n m : Nat) (v d : α) (h : m ≠ n) :
    (setNth l n v).getD m d = l.getD m d := by
  induction l generalizing n m with
  | nil => rfl
  | cons x xs ih =>
    cases n with
    | zero =>
      cases m with
      | zero => exact absurd rfl h
      | succ k => simp [setNth]
    | succ n2 =>
      cases m with
      | zero => simp [setNth]
      | succ k =>
        simp only [setNth, List.getD_cons_succ]
        exact ih n2 k (by omega)

theorem setNth_of_length_le {α : Type} (l : List α) (n : Nat) (v : α)
    (h : l.length ≤ n) : setNth l n v = l := by
  induction l generalizing n with
  | nil => rfl
  | cons x xs ih =>
    cases n with
    | zero => simp at h
    | succ m => simp only [setNth]; rw [ih m (by simpa using h)]

theorem getD_setNth_self {α : Type} (l : List α) (n : Nat) (v d : α)
    (h : n < l.length) : (setNth l n v).getD n d = v := by
  induction l generalizing n with
  | nil => simp at h
  | cons x xs ih =>
    cases n with
    | zero => rfl
    | succ m =>
      simp only [setNth, List.getD_cons_succ]
      exact ih m (by simpa using h)

theorem update_cell_length (ws : Worksheet) (r c : Nat) (v : String) :
    (update_cell ws r c v).length = ws.length := by
  simp [update_cell, setNth_length]

/-- A single status update leaves every cell outside column 11
unchanged. -/
theorem cellAt_update_cell11_ne (ws : Worksheet) (r i j : Nat) (v : String)
    (hj : 1 ≤ j) (hne : j ≠ 11) :
    cellAt (update_cell ws r 11 v) i j = cellAt ws i j := by
  unfold cellAt update_cell
  by_cases hrow : i - 1 = r - 1
  · rw [hrow]
    by_cases hlt : r - 1 < ws.length
    · rw [getD_setNth_self _ _ _ _ hlt, getD_setNth_ne _ _ _ _ _ (by omega)]
    · rw [setNth_of_length_le _ _ _ (by omega)]
  · rw [getD_setNth_ne _ _ _ _ _ hrow]

/-- Any update leaves every other row unchanged. -/
theorem update_cell_row_ne (ws : Worksheet) (r c i : Nat) (v : String)
    (hi : 1 ≤ i) (hr : 1 ≤ r) (hne : i ≠ r) :
    (update_cell ws r c v).getD (i - 1) [] = ws.getD (i - 1) [] := by
  unfold update_cell
  exact getD_setNth_ne _ _ _ _ _ (by omega)

/-- The rows the approval loop updates, replayed as a fold of
single-cell status updates. -/
def foldApprove (rs : List Nat) (ws : Worksheet) : Worksheet :=
  rs.foldl (fun s r => update_cell s r 11 "Approved") ws

theorem foldApprove_length (rs : List Nat) :
    ∀ ws : Worksheet, (foldApprove rs ws).length = ws.length := by
  induction rs with
  | nil => intro ws; rfl
  | cons r rs ih =>
    intro ws
    simp only [foldApprove, List.foldl_cons] at ih ⊢
    rw [ih, update_cell_length]

theorem cellAt_foldApprove_ne (rs : List Nat) :
    ∀ (ws : Worksheet) (i j : Nat), 1 ≤ j → j ≠ 11 →
      cellAt (foldApprove rs ws) i j = cellAt ws i j := by
  induction rs with
  | nil => intro ws i j _ _; rfl
  | cons r rs ih =>
    intro ws i j hj hne
    simp only [foldApprove, List.foldl_cons] at ih ⊢
    rw [ih _ _ _ hj hne, cellAt_update_cell11_ne _ _ _ _ _ hj hne]

theorem foldApprove_row_ne (rs : List Nat) :
    ∀ (ws : Worksheet) (i : Nat), (∀ r ∈ rs, 1 ≤ r) → 1 ≤ i → i ∉ rs →
      (foldApprove rs ws).getD (i - 1) [] = ws.getD (i - 1) [] := by
  induction rs with
  | nil => intro ws i _ _ _; rfl
  | cons r rs ih =>
    intro ws i hpos hi hmem
    simp only [foldApprove, List.foldl_cons] at ih ⊢
    rw [ih _ _ (fun x hx => hpos x (List.mem_cons_of_mem _ hx)) hi
        (fun hx => hmem (List.mem_cons_of_mem _ hx)),
      update_cell_row_ne _ _ _ _ _ hi (hpos r (List.mem_cons_self _ _))
        (fun he => hmem (he ▸ List.mem_cons_self _ _))]

theorem findCellAux_pos (v : String) :
    ∀ (ws : Worksheet) (k : Nat) (rc : Nat × Nat),
      findCellAux v ws k = some rc → k ≤ rc.1 := by
  intro ws
  induction ws with
  | nil => intro k rc h; simp [findCellAux] at h
  | cons row rows ih =>
    intro k rc h
    unfold findCellAux at h
    cases hi : row.findIdx? (fun c => c == v) with
    | some i =>
      rw [hi] at h
      cases h
      simp
    | none =>
      rw [hi] at h
      have := ih (k + 1) rc h
      omega

/-- Every successful run of the approval loop is a fold of single-cell
status updates over a list of (1-indexed) row numbers, one per selected
user. -/
theorem render_user_approval_shape :
    ∀ (selected : List String) (ws after : Worksheet),
      render_user_approval ws selected = some after →
      ∃ rs : List Nat, rs.length = selected.length ∧ (∀ r ∈ rs, 1 ≤ r) ∧
        after = foldApprove rs ws := by
  intro selected
  induction selected with
  | nil =>
    intro ws after h
    simp [render_user_approval, List.foldlM] at h
    exact ⟨[], rfl, by simp, h.symm⟩
  | cons u us ih =>
    intro ws after h
    simp only [render_user_approval, List.foldlM] at h
    cases hfc : findCell ws u with
    | none => rw [hfc] at h; simp at h
    | some rc =>
      rw [hfc] at h
      simp only [Option.map_some'] at h
      have hbind : us.foldlM
          (fun s u2 => (findCell s u2).map fun rc2 => update_cell s rc2.1 11 "Approved")
          (update_cell ws rc.1 11 "Approved") = some after := by
        simpa using h
      obtain ⟨rs, hlen, hpos, hafter⟩ :=
        ih (update_cell ws rc.1 11 "Approved") after hbind
      refine ⟨rc.1 :: rs, by simp [hlen], ?_, ?_⟩
      · intro r hr
        rcases List.mem_cons.mp hr with he | hm
        · subst he
          exact findCellAux_pos u ws 1 rc hfc
        · exact hpos r hm
      · simpa [foldApprove] using hafter

/-- The claimed frame shape of one form submission: either exactly one
row is appended, or the cells of one existing row change and every
other row is unchanged. -/
def singleRowSubmission (before after : Worksheet) : Prop :=
  (∃ row, after = before ++ [row]) ∨
  (∃ i, after.length = before.length ∧
    ∀ j, j ≠ i → after.getD j [] = before.getD j [])

def c6Header : List String :=
  ["Timestamp", "FullName", "CollegeName", "Branch", "RollNO(UniversityRegNo)",
   "YearofPassing_Passed", "Phone(login)", "Phone(Whatsapp)", "UserName",
   "Password", "Status(Approved/NotApproved)", "Role(Student/Lead)"]

def c6RowU1 : List String :=
  ["t1", "User One", "C", "B", "1", "2025", "111", "111", "u1", "h1",
   "NotApproved", "Student"]

def c6RowU2 : List String :=
  ["t2", "User Two", "C", "B", "2", "2025", "222", "222", "u2", "h2",
   "NotApproved", "Student"]

def c6Sheet : Worksheet := [c6Header, c6RowU1, c6RowU2]

def c6After : Worksheet :=
  [c6Header,
   ["t1", "User One", "C", "B", "1", "2025", "111", "111", "u1", "h1",
    "Approved", "Student"],
   ["t2", "User Two", "C", "B", "2", "2025", "222", "222", "u2", "h2",
    "Approved", "Student"]]

/-- C6 counterexample: approving the two pending users `u1` and `u2` in
one button press updates the status cells of two distinct rows, so the
submission neither appends exactly one row nor updates the cells of one
single existing row. -/
theorem c6_counterexample :
    render_user_approval c6Sheet ["u1", "u2"] = some c6After ∧
    ¬ singleRowSubmission c6Sheet c6After := by
  constructor
  · decide
  · rintro (⟨row, hrow⟩ | ⟨i, hlen, hall⟩)
    · have := congrArg List.length hrow
      simp [c6Sheet, c6After] at this
    · by_cases h1 : i = 1
      · have := hall 2 (by omega)
        simp [c6Sheet, c6After, c6RowU2] at this
      · have := hall 1 (fun he => h1 he.symm)
        simp [c6Sheet, c6After, c6RowU1] at this

/-- C6 (amended): every modelled form submission (sign-up, event
creation, event enrollment, project update, user approval, evaluation)
writes the sheets only through `append_row` and `update_cell`: a
successful sign-up, event creation or enrollment appends exactly one
row (each leaves the sheet unchanged on failure), a project update and
an evaluation always append exactly one row, while one press of the
user-approval button is a fold of single-cell updates in the status
column (column 11), one per selected user, leaving every cell outside
column 11 and every untouched row unchanged. -/
theorem c6_form_submission_writes :
    (∀ records now d, (create_user records now d).2.2 = records ∨
      (create_user records now d).2.2 = records ++ [newUserRow now d]) ∧
    (∀ ws eventName demoDate domain descr,
      (leader_create_event ws eventName demoDate domain descr).1 = ws ∨
      (leader_create_event ws eventName demoDate domain descr).1 =
        ws ++ [newEventRow demoDate eventName domain descr]) ∧
    (∀ ws fn cn b t de k, (render_enrollment_form ws fn cn b t de k).1 = ws ∨
      (render_enrollment_form ws fn cn b t de k).1 =
        ws ++ [enrollmentRow fn cn b t de k]) ∧
    (∀ ws latest tools report ppt github youtube linkedin,
      render_update_form ws latest tools report ppt github youtube linkedin =
        ws ++ [updatedProjectRow latest tools report ppt github youtube linkedin]) ∧
    (∀ ws selected after, render_user_approval ws selected = some after →
      after.length = ws.length ∧
      (∀ i j, 1 ≤ j → j ≠ 11 → cellAt after i j = cellAt ws i j) ∧
      ∃ rs : List Nat, rs.length = selected.length ∧
        after = foldApprove rs ws ∧
        ∀ i, 1 ≤ i → i ∉ rs → after.getD (i - 1) [] = ws.getD (i - 1) []) ∧
    (∀ evalSheet candidate projectTitle s1 s2 s3 s4 evaluator,
      show_evaluator_ui evalSheet candidate projectTitle s1 s2 s3 s4 evaluator =
        evalSheet ++
          [⟨candidate, projectTitle, ((s1 : ℚ) + s2 + s3 + s4) / 4, evaluator⟩]) := by
  refine ⟨?_, ?_, ?_, ?_, ?_, ?_⟩
  · intro records now d
    by_cases hd : signupDup records d
    · left
      simp [create_user, hd]
    · right
      simp [create_user, hd]
  · intro ws eventName demoDate domain descr
    by_cases h : eventName = "" ∨ domain = "" ∨ descr = ""
    · left
      simp [leader_create_event, h]
    · right
      simp [leader_create_event, h, append_row]
  · intro ws fn cn b t de k
    by_cases h : t = "" ∨ de = "" ∨ k = ""
    · left
      simp [render_enrollment_form, h]
    · right
      simp [render_enrollment_form, h, append_row]
  · intro ws latest tools report ppt github youtube linkedin
    rfl
  · intro ws selected after h
    obtain ⟨rs, hlen, hpos, hafter⟩ := render_user_approval_shape selected ws after h
    subst hafter
    exact ⟨foldApprove_length rs ws,
      fun i j hj hne => cellAt_foldApprove_ne rs ws i j hj hne,
      rs, hlen, rfl,
      fun i hi hmem => foldApprove_row_ne rs ws i hpos hi hmem⟩
  · intro evalSheet candidate projectTitle s1 s2 s3 s4 evaluator
    rfl

def c6After1 : Worksheet :=
  [c6Header,
   ["t1", "User One", "C", "B", "1", "2025", "111", "111", "u1", "h1",
    "Approved", "Student"],
   c6RowU2]

/-- C6 amended witness: approving the single user `u1` keeps the sheet
length and every cell outside the status column, here the username cell
of the untouched third row. -/
theorem c6_form_submission_writes_witness :
    c6After1.length = c6Sheet.length ∧ cellAt c6After1 3 9 = cellAt c6Sheet 3 9 := by
  have h := c6_form_submission_writes.2.2.2.2.1 c6Sheet ["u1"] c6After1 (by decide)
  exact ⟨h.1, h.2.1 3 9 (by omega) (by omega)⟩

/-- C2: with a non-empty API key, report link and question, and every
component succeeding, one question submission on the peer-learning page
performs exactly: load the remote document, split (chunk size 1000,
overlap 200), embed, build the FAISS index, retrieve the chunks for the
question, compose the prompt, call the hosted model, and display its
output as the answer, in this order. -/
theorem c2_rag_pipeline {E I : Type} (env : RagEnv E I)
    (apiKey url q : String) (docs chunks : List String) (emb : E) (idx : I)
    (ctx : List String) (ans : String)
    (hk : apiKey ≠ "") (hu : url ≠ "") (hq : q ≠ "")
    (h1 : env.load url = .ok docs)
    (h2 : env.split 1000 200 docs = .ok chunks)
    (h3 : env.embed "all-MiniLM-L6-v2" chunks = .ok emb)
    (h4 : env.buildIndex emb = .ok idx)
    (h5 : env.retrieve idx q = .ok ctx)
    (h6 : env.chat "llama3-70b-8192" (ragTemplate (env.format ctx) q) = .ok ans) :
    show_peer_learning_page env apiKey url q =
      ⟨some ans, none,
       [.loadDocument url, .splitDocuments 1000 200,
        .embedChunks "all-MiniLM-L6-v2", .buildIndex, .retrieveChunks q,
        .composePrompt ctx q,
        .callModel "llama3-70b-8192" (ragTemplate (env.format ctx) q),
        .displayAnswer ans]⟩ := by
  simp [show_peer_learning_page, runRagChain, hk, hu, hq, h1, h2, h3, h4, h5, h6]

/-- An environment in which every component succeeds. -/
def c2Env : RagEnv Unit Unit where
  load := fun _ => .ok ["document text"]
  loadPdf := fun _ => .ok ["pdf text"]
  split := fun _ _ ds => .ok ds
  embed := fun _ _ => .ok ()
  buildIndex := fun _ => .ok ()
  retrieve := fun _ _ => .ok ["chunk one"]
  format := fun cs => String.intercalate "\n\n" cs
  chat := fun _ _ => .ok "model answer"

/-- C2 witness: a concrete successful run produces the full ordered
trace and displays the model output. -/
theorem c2_rag_pipeline_witness :
    show_peer_learning_page c2Env "gsk-key" "report-url" "What is it?" =
      ⟨some "model answer", none,
       [.loadDocument "report-url", .splitDocuments 1000 200,
        .embedChunks "all-MiniLM-L6-v2", .buildIndex,
        .retrieveChunks "What is it?", .composePrompt ["chunk one"] "What is it?",
        .callModel "llama3-70b-8192"
          (ragTemplate (c2Env.format ["chunk one"]) "What is it?"),
        .displayAnswer "model answer"]⟩ :=
  c2_rag_pipeline c2Env "gsk-key" "report-url" "What is it?" ["document text"]
    ["document text"] () () ["chunk one"] "model answer" (by decide) (by decide)
    (by decide) rfl rfl rfl rfl rfl rfl

/-- A failed run of the peer-learning chain performs at most one
document load: there is no retry. -/
theorem countLoads_runRagChain {E I : Type} (env : RagEnv E I) (url q : String) :
    countLoads (runRagChain env url q).1 ≤ 1 := by
  unfold runRagChain
  cases h1 : env.load url with
  | error e => simp [countLoads, h1]
  | ok docs =>
    cases h2 : env.split 1000 200 docs with
    | error e => simp [countLoads, h1, h2]
    | ok chunks =>
      cases h3 : env.embed "all-MiniLM-L6-v2" chunks with
      | error e => simp [countLoads, h1, h2, h3]
      | ok emb =>
        cases h4 : env.buildIndex emb with
        | error e => simp [countLoads, h1, h2, h3, h4]
        | ok idx =>
          cases h5 : env.retrieve idx q with
          | error e => simp [countLoads, h1, h2, h3, h4, h5]
          | ok ctx =>
            cases h6 : env.chat "llama3-70b-8192" (ragTemplate (env.format ctx) q) with
            | error e => simp [countLoads, h1, h2, h3, h4, h5, h6]
            | ok ans => simp [countLoads, h1, h2, h3, h4, h5, h6]

/-- C4: when any step of a RAG page's chain raises, the single
catch-all handler of the page shows the error message, no answer (and
no notes) is produced, the trace shown is that of the one chain
invocation, and the peer-learning page performed at most one document
load (no retry). -/
theorem c4_catch_all_error_handling :
    (∀ (E I : Type) (env : RagEnv E I) (apiKey url q : String)
        (tr : List RagStep) (e : String),
      apiKey ≠ "" → url ≠ "" → q ≠ "" →
      runRagChain env url q = (tr, .error e) →
      show_peer_learning_page env apiKey url q =
        ⟨none, some ("Failed to process the document. Error: " ++ e), tr⟩ ∧
      countLoads tr ≤ 1) ∧
    (∀ (E I : Type) (env : RagEnv E I) (apiKey : String) (pdf : Option String)
        (links : List String) (tr : List RagStep) (e : String),
      apiKey ≠ "" → ¬(pdf = none ∧ links = []) →
      runNotesChain env pdf links = (tr, .error e) →
      render_ai_tools env apiKey pdf links =
        ⟨none, some ("An error occurred: " ++ e), tr⟩) := by
  constructor
  · intro E I env apiKey url q tr e hk hu hq hrun
    constructor
    · simp [show_peer_learning_page, hk, hu, hq, hrun]
    · have hle := countLoads_runRagChain env url q
      rw [hrun] at hle
      exact hle
  · intro E I env apiKey pdf links tr e hk hcond hrun
    simp [render_ai_tools, hk, hcond, hrun]

/-- An environment in which every document load raises. -/
def c4Env : RagEnv Unit Unit :=
  { c2Env with
    load := fun _ => .error "boom"
    loadPdf := fun _ => .error "boom" }

/-- C4 witness: with a failing loader, the peer-learning page and the
notes generator both show the handler's error message and produce no
answer. -/
theorem c4_catch_all_error_handling_witness :
    show_peer_learning_page c4Env "gsk-key" "report-url" "What is it?" =
      ⟨none, some ("Failed to process the document. Error: " ++ "boom"),
       [.loadDocument "report-url"]⟩ ∧
    countLoads [RagStep.loadDocument "report-url"] ≤ 1 ∧
    render_ai_tools c4Env "gsk-key" none ["web-link"] =
      ⟨none, some ("An error occurred: " ++ "boom"), [.loadDocument "web-link"]⟩ := by
  have h1 := c4_catch_all_error_handling.1 Unit Unit c4Env "gsk-key" "report-url"
    "What is it?" [.loadDocument "report-url"] "boom" (by decide) (by decide)
    (by decide) rfl
  have h2 := c4_catch_all_error_handling.2 Unit Unit c4Env "gsk-key" none
    ["web-link"] [.loadDocument "web-link"] "boom" (by decide) (by simp) rfl
  exact ⟨h1.1, h1.2, h2⟩

/-- C5: every model call of a question run carries exactly the prompt
built from the template and the retrieved chunks: the context slot is
the formatted retrieved chunks, the question slot the submitted
question, and the template instructs the model to answer based only on
that context; no other document text occurs in the prompt. -/
theorem c5_prompt_only_retrieved_context {E I : Type} (env : RagEnv E I)
    (url q : String) (docs chunks : List String) (emb : E) (idx : I)
    (ctx : List String)
    (h1 : env.load url = .ok docs)
    (h2 : env.split 1000 200 docs = .ok chunks)
    (h3 : env.embed "all-MiniLM-L6-v2" chunks = .ok emb)
    (h4 : env.buildIndex emb = .ok idx)
    (h5 : env.retrieve idx q = .ok ctx) :
    RagStep.callModel "llama3-70b-8192" (ragTemplate (env.format ctx) q) ∈
      (runRagChain env url q).1 ∧
    (∀ m p, RagStep.callModel m p ∈ (runRagChain env url q).1 →
      m = "llama3-70b-8192" ∧ p = ragTemplate (env.format ctx) q) ∧
    ragTemplate (env.format ctx) q =
      "Answer the question based only on the context:\n\n" ++ env.format ctx ++
        "\n\nQuestion: " ++ q := by
  refine ⟨?_, ?_, rfl⟩ <;>
  · cases h6 : env.chat "llama3-70b-8192" (ragTemplate (env.format ctx) q) <;>
      simp [runRagChain, h1, h2, h3, h4, h5, h6]

/-- C5 witness: the concrete successful run contains the model call with
the template filled from the retrieved chunk. -/
theorem c5_prompt_only_retrieved_context_witness :
    RagStep.callModel "llama3-70b-8192"
        (ragTemplate (c2Env.format ["chunk one"]) "Why?") ∈
      (runRagChain c2Env "second-url" "Why?").1 :=
  (c5_prompt_only_retrieved_context c2Env "second-url" "Why?" ["document text"]
    ["document text"] () () ["chunk one"] rfl rfl rfl rfl rfl).1

/-- The structure the regex guarantees for the capture groups of one
match: each option group starts with its letter, `)` and a space, and
the answer letter is one of `A`-`D`. -/
def goodGroups (g : QuizGroups) : Prop :=
  (∃ a, g.optA = 'A' :: ')' :: ' ' :: a) ∧
  (∃ b, g.optB = 'B' :: ')' :: ' ' :: b) ∧
  (∃ c, g.optC = 'C' :: ')' :: ' ' :: c) ∧
  (∃ d, g.optD = 'D' :: ')' :: ' ' :: d) ∧
  (g.ansLetter = 'A' ∨ g.ansLetter = 'B' ∨ g.ansLetter = 'C' ∨ g.ansLetter = 'D')

theorem findSome?_eq_some_exists {α β : Type} {f : α → Option β} :
    ∀ {l : List α} {b : β}, l.findSome? f = some b → ∃ a ∈ l, f a = some b := by
  intro l
  induction l with
  | nil => intro b h; simp [List.findSome?] at h
  | cons x xs ih =>
    intro b h
    rw [List.findSome?_cons] at h
    cases hf : f x with
    | some y =>
      rw [hf] at h
      exact ⟨x, List.mem_cons_self _ _, hf.trans h⟩
    | none =>
      rw [hf] at h
      obtain ⟨a, ha, hfa⟩ := ih h
      exact ⟨a, List.mem_cons_of_mem _ ha, hfa⟩

theorem matchQuizBody_good (cs : List Char) (g : QuizGroups) (rest : List Char)
    (h : matchQuizBody cs = some (g, rest)) : goodGroups g := by
  unfold matchQuizBody at h
  obtain ⟨p1, hp1, h⟩ := findSome?_eq_some_exists h
  obtain ⟨p2, hp2, h⟩ := findSome?_eq_some_exists h
  obtain ⟨p3, hp3, h⟩ := findSome?_eq_some_exists h
  obtain ⟨p4, hp4, h⟩ := findSome?_eq_some_exists h
  obtain ⟨p5, hp5, h⟩ := findSome?_eq_some_exists h
  cases hr : p5.2 with
  | nil => rw [hr] at h; simp at h
  | cons l rest2 =>
    simp only [hr] at h
    by_cases hl : l = 'A' ∨ l = 'B' ∨ l = 'C' ∨ l = 'D'
    · rw [if_pos hl] at h
      simp only [Option.some.injEq, Prod.mk.injEq] at h
      obtain ⟨hg, hrest⟩ := h
      subst hg
      exact ⟨⟨p2.1, rfl⟩, ⟨p3.1, rfl⟩, ⟨p4.1, rfl⟩, ⟨p5.1, rfl⟩, hl⟩
    · rw [if_neg hl] at h
      simp at h

theorem matchQuiz_good (cs : List Char) (g : QuizGroups) (rest : List Char)
    (h : matchQuiz cs = some (g, rest)) : goodGroups g := by
  cases cs with
  | nil => simp [matchQuiz] at h
  | cons c rest0 =>
    simp only [matchQuiz] at h
    by_cases hq : c = 'Q'
    · rw [if_pos hq] at h
      by_cases hd : (rest0.takeWhile Char.isDigit).isEmpty
      · rw [if_pos hd] at h
        simp at h
      · rw [if_neg hd] at h
        split at h
        · exact matchQuizBody_good _ _ _ h
        · simp at h
    · rw [if_neg hq] at h
      simp at h

theorem findAllQuiz_good :
    ∀ (fuel : Nat) (cs : List Char) (g : QuizGroups),
      g ∈ findAllQuiz fuel cs → goodGroups g := by
  intro fuel
  induction fuel with
  | zero => intro cs g h; simp [findAllQuiz] at h
  | succ n ih =>
    intro cs g h
    cases cs with
    | nil => simp [findAllQuiz] at h
    | cons c cs2 =>
      simp only [findAllQuiz] at h
      cases hm : matchQuiz (c :: cs2) with
      | some p =>
        obtain ⟨g0, rest⟩ := p
        rw [hm] at h
        simp only [List.mem_cons] at h
        rcases h with he | hmem
        · subst he
          exact matchQuiz_good _ _ _ hm
        · exact ih rest g hmem
      | none =>
        rw [hm] at h
        exact ih cs2 g h

theorem rstripL_cons_of_not_ws (c : Char) (cs : List Char)
    (hc : c.isWhitespace = false) : ∃ t, rstripL (c :: cs) = c :: t := by
  cases h : rstripL cs with
  | nil => exact ⟨[], by simp [rstripL, h, hc]⟩
  | cons x xs => exact ⟨x :: xs, by simp [rstripL, h]⟩

theorem pyStripL_pair (x y : Char) (cs : List Char)
    (hx : x.isWhitespace = false) (hy : y.isWhitespace = false) :
    ∃ t, pyStripL (x :: y :: cs) = x :: y :: t := by
  obtain ⟨t1, h1⟩ := rstripL_cons_of_not_ws y cs hy
  refine ⟨t1, ?_⟩
  unfold pyStripL lstripL
  rw [List.dropWhile_cons_of_neg (by simp [hx])]
  rw [rstripL, h1]

theorem startsWithL_pair (l m : Char) (t : List Char) :
    startsWithL [l, ')'] (m :: ')' :: t) = (l == m) := by
  simp [startsWithL]

/-- Properties of the question dictionary built from one well-formed
match: four options, the answer taken from the options, matching and
unique for the answer letter. -/
theorem mkQuestion_good (g : QuizGroups) (hg : goodGroups g) :
    (mkQuestion g).options.length = 4 ∧
    (mkQuestion g).answer ∈ (mkQuestion g).options ∧
    startsWithL [g.ansLetter, ')'] (mkQuestion g).answer = true ∧
    (∀ o ∈ (mkQuestion g).options,
      startsWithL [g.ansLetter, ')'] o = true → o = (mkQuestion g).answer) := by
  obtain ⟨⟨a, ha⟩, ⟨b, hb⟩, ⟨c, hc⟩, ⟨d, hd⟩, hl⟩ := hg
  obtain ⟨ta, hta⟩ := pyStripL_pair 'A' ')' (' ' :: a) (by decide) (by decide)
  obtain ⟨tb, htb⟩ := pyStripL_pair 'B' ')' (' ' :: b) (by decide) (by decide)
  obtain ⟨tc, htc⟩ := pyStripL_pair 'C' ')' (' ' :: c) (by decide) (by decide)
  obtain ⟨td, htd⟩ := pyStripL_pair 'D' ')' (' ' :: d) (by decide) (by decide)
  rcases hl with hl | hl | hl | hl <;>
    simp [mkQuestion, ha, hb, hc, hd, hta, htb, htc, htd, hl, answerLookup,
      List.find?, startsWithL_pair]

/-- C9: every question produced by `parse_quiz_from_markdown` has
exactly four options, and its answer field is a member of its options
list, namely the unique option whose prefix letter matches the letter
captured after `ANSWER:`. -/
theorem c9_parse_quiz (md : String) :
    (∀ q ∈ parse_quiz_from_markdown md,
      q.options.length = 4 ∧ q.answer ∈ q.options) ∧
    (∀ g ∈ findAllQuiz (md.data.length + 1) md.data,
      startsWithL [g.ansLetter, ')'] (mkQuestion g).answer = true ∧
      ∀ o ∈ (mkQuestion g).options,
        startsWithL [g.ansLetter, ')'] o = true → o = (mkQuestion g).answer) := by
  constructor
  · intro q hq
    rw [parse_quiz_from_markdown] at hq
    obtain ⟨g, hg, rfl⟩ := List.mem_map.mp hq
    have h := mkQuestion_good g (findAllQuiz_good _ _ _ hg)
    exact ⟨h.1, h.2.1⟩
  · intro g hg
    have h := mkQuestion_good g (findAllQuiz_good _ _ _ hg)
    exact ⟨h.2.2.1, h.2.2.2⟩

def c9Md : String := "Q1: What is X?\nA) one\nB) two\nC) three\nD) four\nANSWER: B"

/-- C9 witness: the single question parsed from a concrete quiz block
has four options and its answer among them. -/
theorem c9_parse_quiz_witness :
    ((parse_quiz_from_markdown c9Md).getD 0 ⟨[], [], []⟩).options.length = 4 ∧
    ((parse_quiz_from_markdown c9Md).getD 0 ⟨[], [], []⟩).answer ∈
      ((parse_quiz_from_markdown c9Md).getD 0 ⟨[], [], []⟩).options :=
  (c9_parse_quiz c9Md).1 _ (by decide)
